import Mathlib

/-!
Shallow embedding of `kopf/_core/intents/registries.py`: the handler
registries and the matching engine of the kopf operator framework.

Python objects are modelled as follows: nested resource bodies (JSON-like
mappings) become the inductive type `Val`; the sentinel `_UNSET.token`
used with `dicts.resolve` for missing paths becomes `Option.none` (a
resolved value is `some v`); user callables become Lean functions, which
makes them pure by construction (the Python code builds the `kwargs`
mapping lazily and shares it across the filters of one `match`/`prematch`
call; under purity this equals passing `cause.kwargs` to each filter, which
is how the embedding threads it); CPython's callable identity `id(fn)`
becomes an explicit `fnId : Nat` captured in the handler record; fallible
code returns `Except`.  A registry is embedded as its ordered `_handlers`
list; generators consumed with `list(...)` become list-valued functions.
-/

namespace Kopf

mutual
/-- A JSON-like value as found in Kubernetes resource bodies.  Mappings are
association lists with unique keys (the representation invariant of a
Python `dict`; equality of well-formed maps built in a fixed key order
coincides with Python's structural `dict` equality). -/
inductive Val where
  | null
  | str (s : String)
  | num (n : Int)
  | boolean (b : Bool)
  | map (m : ValMap)
deriving DecidableEq, Repr
/-- The entry list of a `Val.map` mapping. -/
inductive ValMap where
  | nil
  | cons (k : String) (v : Val) (rest : ValMap)
deriving DecidableEq, Repr
end

/-- Python `dict` lookup on the association-list representation. -/
def ValMap.lookup : ValMap → String → Option Val
  | ValMap.nil, _ => none
  | ValMap.cons k v rest, key => if k = key then some v else ValMap.lookup rest key

/-- The kwargs mapping passed to user predicate callables (`cause.kwargs`).
Its contents are opaque to the matching engine. -/
def Kwargs : Type := List (String × Val)

/-- A resource kind, opaque to this subsystem beyond selector evaluation
(`references.Resource`). -/
def Resource : Type := String

/-- A resource selector (`references.Selector`): the subsystem only consumes
`selector.check(resource)` (spec section 6, consumed interfaces), so a
selector is embedded as that boolean test. -/
def Selector : Type := Resource → Bool

/-- `causes.WebhookType.MUTATING`, the admission webhook type tag tested by
the webhook registry's deletion-safety rule. -/
def WebhookType.MUTATING : String := "MUTATING"

/-- A label/annotation filter value (`filters.MetaFilter` values): the
present token, the absent token, a predicate callable, or an exact value. -/
inductive MetaVal where
  | present
  | absent
  | pred (f : Option String → Kwargs → Bool)
  | value (s : String)

/-- A field-value criterion (`handler.value` / `handler.old` / `handler.new`):
Python `None` (unconstrained), the present/absent tokens, a predicate
callable (which receives the resolved value; `none` stands for the absent
sentinel), or an exact value. -/
inductive ValFilter where
  | unconstrained
  | present
  | absent
  | pred (f : Option Val → Kwargs → Bool)
  | value (v : Val)

/-- `handlers.ResourceHandler` together with the subclass fields used by the
matching engine.  The Python `isinstance(handler, ChangingHandler)` and
`isinstance(handler, WebhookHandler)` tests become the `isChanging` and
`isWebhook` flags.  `fn` is represented by its CPython identity `fnId`.
`labels`/`annotations` of Python `None` or an empty dict (both falsy, and
treated identically by the code) are the empty list; likewise `field` of
`None` or an empty path is the empty list.  `deleted` (Python
`Optional[bool]`, used only for its truthiness) is a `Bool`. -/
structure ResourceHandler where
  id : String
  fnId : Nat
  selector : Option Selector
  labels : List (String × MetaVal)
  annotations : List (String × MetaVal)
  when : Option (Kwargs → Bool)
  field : List String
  value : ValFilter
  old : ValFilter
  new : ValFilter
  field_needs_change : Bool
  initial : Bool
  deleted : Bool
  reason : Option String
  requires_finalizer : Bool
  subresource : Option String
  operations : Option (List String)
  isChanging : Bool
  isWebhook : Bool

/-- `execution.Cause` together with the subclass fields used by the matching
engine (`causes.ResourceCause`, `causes.ChangingCause`,
`causes.WebhookCause`).  The Python `isinstance(cause, ChangingCause)` and
`isinstance(cause, WebhookCause)` tests become the `isChanging` and
`isWebhook` flags.  `old`/`new` may be absent (`none`) on non-update
events.  Reasons and webhook types are tags embedded as strings. -/
structure Cause where
  resource : Resource
  body : Val
  old : Option Val
  new : Option Val
  reason : Option String
  initial : Bool
  deleted : Bool
  subresource : Option String
  webhook : Option String
  operation : Option String
  kwargs : Kwargs
  isChanging : Bool
  isWebhook : Bool

/-- Modelled from the spec: `dicts.resolve` (from `kopf._cogs.structs.dicts`,
not part of the sources) resolves a field path against a nested mapping
"using a sentinel absent marker for missing paths" (spec section 4.2);
`none` plays the sentinel's role, both for a missing path and for a missing
whole body (`cause.old`/`cause.new` of Python `None`). -/
def resolve : Option Val → List String → Option Val
  | v, [] => v
  | some (Val.map m), k :: ks =>
      match ValMap.lookup m k with
      | some v => resolve (some v) ks
      | none => none
  | _, _ :: _ => none

/-- `cause.body.get('metadata', \x7b\x7d).get(key, \x7b\x7d)` for
`key in ('labels', 'annotations')`, flattened to the string-to-string
mapping that `_matches_metadata` receives.  Kubernetes metadata maps are
string-valued; non-mapping/missing levels yield the empty mapping. -/
def bodyMeta (body : Val) (key : String) : List (String × String)  :=
  match resolve (some body) ["metadata", key] with
  | some (Val.map m) => strEntries m
  | _ => []
where strEntries : ValMap → List (String × String)
  | ValMap.nil => []
  | ValMap.cons k v rest =>
      match v with
      | Val.str s => (k, s) :: strEntries rest
      | _ => strEntries rest

/-- `_matches_resource`: the handler has no selector, or its selector accepts
the resource. -/
def _matches_resource (handler : ResourceHandler) (resource : Resource) : Bool :=
  match handler.selector with
  | none => true
  | some s => s resource

/-- `_matches_subresource`: constrains only webhook handlers against webhook
causes; the handler's subresource is the wildcard `'*'` or equals the
cause's subresource (including the `None == None` case). -/
def _matches_subresource (handler : ResourceHandler) (cause : Cause) : Bool :=
  if !handler.isWebhook then true
  else if !cause.isWebhook then true
  else handler.subresource == some "*" || handler.subresource == cause.subresource

/-- `_matches_metadata`: the per-key loop with its early `return False`.  The
Python `if/elif` chain per key reduces, per filter-value tag, to: absent
token — the key must be missing; present token — the key must exist;
callable — it must return truthy on `content.get(key, None)` plus the
kwargs; any other value — the key must exist with exactly that value (the
chain's final equality test can only succeed for a plain value, since a
token or a callable never equals a string from the body). -/
def _matches_metadata (pattern : List (String × MetaVal))
    (content : List (String × String)) (kwargs : Kwargs) : Bool :=
  match pattern with
  | [] => true
  | (key, value) :: rest =>
    match value with
    | MetaVal.absent =>
        if (content.lookup key).isNone then _matches_metadata rest content kwargs else false
    | MetaVal.present =>
        if (content.lookup key).isSome then _matches_metadata rest content kwargs else false
    | MetaVal.pred f =>
        if f (content.lookup key) kwargs then _matches_metadata rest content kwargs else false
    | MetaVal.value v =>
        match content.lookup key with
        | none => false
        | some w => if v = w then _matches_metadata rest content kwargs else false

/-- `_matches_labels`: no label filter (falsy), or the metadata match against
the body's labels. -/
def _matches_labels (handler : ResourceHandler) (cause : Cause) (kwargs : Kwargs) : Bool :=
  handler.labels.isEmpty ||
    _matches_metadata handler.labels (bodyMeta cause.body "labels") kwargs

/-- `_matches_annotations`: no annotation filter (falsy), or the metadata
match against the body's annotations. -/
def _matches_annotations (handler : ResourceHandler) (cause : Cause) (kwargs : Kwargs) : Bool :=
  handler.annotations.isEmpty ||
    _matches_metadata handler.annotations (bodyMeta cause.body "annotations") kwargs

/-- `_matches_field_values`: with no field declared, matches.  Otherwise the
field path is resolved against `[new, old]` (changing causes, `new` first)
or `[body]`, and the `value` criterion is a disjunction over the resolved
values.  The Python disjunction chain reduces per tag: `None` and the
present token need some value not absent; the absent token needs some value
absent; a callable needs a truthy result on some value; otherwise equality
with some value (the chain's trailing `any(handler.value == value)` can
only succeed for a plain value). -/
def _matches_field_values (handler : ResourceHandler) (cause : Cause) (kwargs : Kwargs) : Bool :=
  if handler.field.isEmpty then true
  else
    let values : List (Option Val) :=
      if cause.isChanging then
        [resolve cause.new handler.field, resolve cause.old handler.field]
      else
        [resolve (some cause.body) handler.field]
    match handler.value with
    | ValFilter.unconstrained => values.any (fun v => v.isSome)
    | ValFilter.present => values.any (fun v => v.isSome)
    | ValFilter.absent => values.any (fun v => v.isNone)
    | ValFilter.pred f => values.any (fun v => f v kwargs)
    | ValFilter.value w => values.any (fun v => v == some w)

/-- `_matches_field_changes`: applies only to changing handlers on changing
causes with a declared field; requires no-change to be allowed (or an
actual change), and the `old` and `new` criteria to accept the resolved
old and new values.  Each criterion's Python disjunction chain reduces per
tag as in `_matches_field_values`, except that criterion `None` is
unconditionally accepting here. -/
def _matches_field_changes (handler : ResourceHandler) (cause : Cause) (kwargs : Kwargs) : Bool :=
  if !handler.isChanging then true
  else if !cause.isChanging then true
  else if handler.field.isEmpty then true
  else
    let old := resolve cause.old handler.field
    let new := resolve cause.new handler.field
    (!handler.field_needs_change || old != new) &&
    (match handler.old with
     | ValFilter.unconstrained => true
     | ValFilter.absent => old.isNone
     | ValFilter.present => old.isSome
     | ValFilter.pred f => f old kwargs
     | ValFilter.value w => some w == old) &&
    (match handler.new with
     | ValFilter.unconstrained => true
     | ValFilter.absent => new.isNone
     | ValFilter.present => new.isSome
     | ValFilter.pred f => f new kwargs
     | ValFilter.value w => some w == new)

/-- `_matches_filter_callback`: no `when` callback, or a truthy result. -/
def _matches_filter_callback (handler : ResourceHandler) (cause : Cause) (kwargs : Kwargs) : Bool :=
  match handler.when with
  | none => true
  | some f => f kwargs

/-- `prematch`: the conjunction of all structural filters except the
field-change filter, the callback coming last. -/
def prematch (handler : ResourceHandler) (cause : Cause) : Bool :=
  _matches_resource handler cause.resource &&
  _matches_subresource handler cause &&
  _matches_labels handler cause cause.kwargs &&
  _matches_annotations handler cause cause.kwargs &&
  _matches_field_values handler cause cause.kwargs &&
  _matches_filter_callback handler cause cause.kwargs

/-- `match`: the conjunction of all filters, the callback coming last. -/
def «match» (handler : ResourceHandler) (cause : Cause) : Bool :=
  _matches_resource handler cause.resource &&
  _matches_subresource handler cause &&
  _matches_labels handler cause cause.kwargs &&
  _matches_annotations handler cause cause.kwargs &&
  _matches_field_values handler cause cause.kwargs &&
  _matches_field_changes handler cause cause.kwargs &&
  _matches_filter_callback handler cause cause.kwargs

/-- The accumulator loop of `_deduplicated`: `seen_ids` collects the
`(id(handler.fn), handler.id)` keys already yielded. -/
def dedupGo {α : Type} (fn_id : α → Nat) (handler_id : α → String)
    (seen_ids : List (Nat × String)) : List α → List α
  | [] => []
  | handler :: rest =>
    if (fn_id handler, handler_id handler) ∈ seen_ids then
      dedupGo fn_id handler_id seen_ids rest
    else
      handler :: dedupGo fn_id handler_id ((fn_id handler, handler_id handler) :: seen_ids) rest

/-- `_deduplicated`: yield the handlers with later repeats of the same
`(id(handler.fn), handler.id)` key removed.  The key projections are
parameters, standing for CPython's `id(handler.fn)` and `handler.id`. -/
def _deduplicated {α : Type} (fn_id : α → Nat) (handler_id : α → String)
    (src : List α) : List α :=
  dedupGo fn_id handler_id [] src

/-- `handlers.ActivityHandler`: only the fields consumed by the activity
registry. -/
structure ActivityHandler where
  id : String
  fnId : Nat
  activity : Option String
  _fallback : Bool
deriving DecidableEq, Repr

/-- `ActivityRegistry.iter_handlers`, consumed as a list: the first loop
yields on `handler.activity is None or (handler.activity == activity and
not handler._fallback)` (Python precedence: `and` binds tighter than `or`)
and sets `found`; the second loop runs only when nothing was found, with
`not handler._fallback` replaced by `handler._fallback`. -/
def ActivityRegistry.iter_handlers (handlers : List ActivityHandler)
    (activity : String) : List ActivityHandler :=
  let regular := handlers.filter (fun handler =>
    handler.activity.isNone || (handler.activity == some activity && !handler._fallback))
  if regular.isEmpty then
    handlers.filter (fun handler =>
      handler.activity.isNone || (handler.activity == some activity && handler._fallback))
  else
    regular

/-- `ActivityRegistry.get_handlers`: the deduplicated selection. -/
def ActivityRegistry.get_handlers (handlers : List ActivityHandler)
    (activity : String) : List ActivityHandler :=
  _deduplicated (fun h => h.fnId) (fun h => h.id)
    (ActivityRegistry.iter_handlers handlers activity)

/-- `ResourceRegistry.get_all_selectors`: the selectors of all handlers,
skipping `None` (reserved for sub-handlers).  The Python `frozenset` is
embedded as the list of contributions (selectors are opaque checks and
carry no decidable equality; the claims concern only which selectors
contribute). -/
def ResourceRegistry.get_all_selectors (handlers : List ResourceHandler) : List Selector :=
  handlers.filterMap (fun handler => handler.selector)

/-- `ResourceRegistry.has_handlers`: some handler's selector test accepts the
resource (early-return loop, embedded as `List.any`). -/
def ResourceRegistry.has_handlers (handlers : List ResourceHandler)
    (resource : Resource) : Bool :=
  handlers.any (fun handler => _matches_resource handler resource)

/-- `ChangingRegistry.iter_handlers`, consumed as a list.  The nested
`if`/`elif` chain — skip when excluded; skip when the reason is
incompatible; `pass` when initial on a non-initial cause; `pass` when
initial on a deletion unless explicitly marked `deleted`; otherwise yield
on `match` — is the conjunction of the corresponding conditions. -/
def ChangingRegistry.iter_handlers (handlers : List ResourceHandler)
    (cause : Cause) (excluded : List String) : List ResourceHandler :=
  handlers.filter (fun handler =>
    !(excluded.contains handler.id) &&
    (handler.reason.isNone || handler.reason == cause.reason) &&
    !(handler.initial && !cause.initial) &&
    !(handler.initial && cause.deleted && !handler.deleted) &&
    «match» handler cause)

/-- `set(handler.operations or []) == \x7b'DELETE'\x7d` from
`WebhooksRegistry.iter_handlers`, with the Python set comparison embedded
as a `Finset` equality. -/
def explicitly_for_deletion (operations : Option (List String)) : Bool :=
  decide ((operations.getD []).toFinset = ({"DELETE"} : Finset String))

/-- `WebhooksRegistry.iter_handlers`, consumed as a list: not excluded;
`matching_reason = cause.reason is None or cause.reason == handler.reason`;
`matching_webhook = cause.webhook is None or cause.webhook == handler.id`;
the deletion-safety gate `non_mutating or non_deletion or
explicitly_for_deletion`; and finally `match`. -/
def WebhooksRegistry.iter_handlers (handlers : List ResourceHandler)
    (cause : Cause) (excluded : List String) : List ResourceHandler :=
  handlers.filter (fun handler =>
    !(excluded.contains handler.id) &&
    (cause.reason.isNone || cause.reason == handler.reason) &&
    (cause.webhook.isNone || cause.webhook == some handler.id) &&
    (handler.reason != some WebhookType.MUTATING ||
     cause.operation != some "DELETE" ||
     explicitly_for_deletion handler.operations) &&
    «match» handler cause)

/-- A Python callable as classified by `get_callable_id`'s `isinstance` and
`hasattr` chain: `None`, a `functools.partial` application, a
`@functools.wraps`-style wrapper exposing the wrapped target, a lambda
(with its defining file path and first line number), a named function or
method (with its qualified name), or any other non-introspectable object. -/
inductive PyCallable where
  | none
  | partialApp (f : PyCallable)
  | wrapped (f : PyCallable)
  | lambda (path : String) (line : Nat)
  | function (qualname : String)
  | method (qualname : String)
  | other

/-- `get_callable_id`: unwrap partials and wrapper chains, derive a
location-based id for lambdas and the qualified name for named
functions/methods; fail on `None` and on non-introspectable callables. -/
def get_callable_id : PyCallable → Except String String
  | PyCallable.none => Except.error "Cannot build a persistent id of None."
  | PyCallable.partialApp f => get_callable_id f
  | PyCallable.wrapped f => get_callable_id f
  | PyCallable.lambda path line => Except.ok ("lambda:" ++ path ++ ":" ++ toString line)
  | PyCallable.function qualname => Except.ok qualname
  | PyCallable.method qualname => Except.ok qualname
  | PyCallable.other => Except.error "Cannot get id of the callable."

/-- `generate_id`: the explicit id if given, else the derived callable id;
then `id/suffix` for a truthy suffix; then `prefix/id` for a truthy
prefix.  The Python parameters `prefix` and `suffix` are keywords in Lean
and are named `pre` and `suf` here. -/
def generate_id (fn : PyCallable) (id : Option String)
    (pre : Option String) (suf : Option String) : Except String String := do
  let real_id : String ←
    match id with
    | some i => pure i
    | none => get_callable_id fn
  let real_id : String :=
    match suf with
    | some s => if s = "" then real_id else real_id ++ "/" ++ s
    | none => real_id
  let real_id : String :=
    match pre with
    | some p => if p = "" then real_id else p ++ "/" ++ real_id
    | none => real_id
  return real_id

/-! Spec-side definitions: these follow the spec's words, for comparison
with the code-side definitions above. -/

/-- Modelled from the spec (section 4.3): given an ordered sequence of
handlers, keep each first occurrence of a (callable identity, id) key and
drop later duplicates, preserving the order of first occurrences. -/
def keepFirstOccurrences {α : Type} (fn_id : α → Nat) (handler_id : α → String) :
    List α → List α
  | [] => []
  | handler :: rest =>
      handler :: keepFirstOccurrences fn_id handler_id
        (rest.filter (fun other =>
          decide ((fn_id other, handler_id other) ≠ (fn_id handler, handler_id handler))))
termination_by l => l.length
decreasing_by
simp only [List.length_cons]
exact Nat.lt_succ_of_le (List.length_filter_le _ _)

/-- Modelled from the spec (section 4.2): the per-key pass criterion of the
label/annotation match — the absent token needs the key missing, the
present token needs it to exist, a predicate callable must return truthy on
the current value (or `none`) plus the kwargs, any other value needs the
key to exist with exactly that value. -/
def metaKeyPasses (content : List (String × String)) (kwargs : Kwargs)
    (key : String) (v : MetaVal) : Bool :=
  match v with
  | MetaVal.absent => (content.lookup key).isNone
  | MetaVal.present => (content.lookup key).isSome
  | MetaVal.pred f => f (content.lookup key) kwargs
  | MetaVal.value s => content.lookup key == some s

/-- Modelled from the spec (section 4.2): the
{None/present/absent/predicate/equality} criterion semantics applied to one
resolved value (`none` is the absent sentinel), as used by the `old` and
`new` criteria of the field-change match. -/
def criterionAccepts (criterion : ValFilter) (v : Option Val) (kwargs : Kwargs) : Bool :=
  match criterion with
  | ValFilter.unconstrained => true
  | ValFilter.absent => v.isNone
  | ValFilter.present => v.isSome
  | ValFilter.pred f => f v kwargs
  | ValFilter.value w => some w == v

/-! Test fixtures used by the concrete theorems and witnesses below. -/

/-- A resource handler with every filter unset: no selector, no labels, no
annotations, no callback, no field, and no category flags. -/
def blankHandler : ResourceHandler :=
  { id := "h", fnId := 0, selector := none, labels := [], annotations := [],
    when := none, field := [], value := ValFilter.unconstrained,
    old := ValFilter.unconstrained, new := ValFilter.unconstrained,
    field_needs_change := false, initial := false, deleted := false,
    reason := none, requires_finalizer := false, subresource := none,
    operations := none, isChanging := false, isWebhook := false }

/-- A cause with no webhook/changing specifics and an empty body. -/
def blankCause : Cause :=
  { resource := "Pod", body := Val.map ValMap.nil, old := none, new := none,
    reason := none, initial := false, deleted := false, subresource := none,
    webhook := none, operation := none, kwargs := [], isChanging := false,
    isWebhook := false }

/-- A sub-handler: selector `None`. -/
def subHandler : ResourceHandler := { blankHandler with id := "sub" }

/-- A non-fallback activity handler tagged for the authentication activity. -/
def regActivityHandler : ActivityHandler :=
  { id := "regular", fnId := 1, activity := some "AUTHENTICATION", _fallback := false }

/-- A fallback activity handler with no activity tag. -/
def fbActivityHandler : ActivityHandler :=
  { id := "fallback", fnId := 2, activity := none, _fallback := true }

/-- A webhook handler with `reason=None` and no other filters. -/
def whReasonNone : ResourceHandler := { blankHandler with id := "wh", isWebhook := true }

/-- A webhook cause hinted with the VALIDATING admission-webhook type. -/
def whCauseValidating : Cause :=
  { blankCause with isWebhook := true, reason := some "VALIDATING" }

/-- A mutating-type webhook handler explicitly declared for DELETE only. -/
def whMutatingDel : ResourceHandler :=
  { blankHandler with
      id := "mw"
      isWebhook := true
      reason := some WebhookType.MUTATING
      operations := some ["DELETE"] }

/-- A mutating-type webhook handler with `operations` unset. -/
def whMutatingNoOps : ResourceHandler :=
  { blankHandler with
      id := "mn"
      isWebhook := true
      reason := some WebhookType.MUTATING }

/-- A webhook cause for a DELETE admission operation. -/
def whDeleteCause : Cause :=
  { blankCause with isWebhook := true, operation := some "DELETE" }

/-- A changing handler marked `initial=True`, not marked for deletions. -/
def initialHandler : ResourceHandler :=
  { blankHandler with id := "ih", isChanging := true, initial := true }

/-- A non-initial changing cause. -/
def nonInitialCause : Cause := { blankCause with isChanging := true }

/-- An initial, non-deleted changing cause. -/
def initialCause : Cause := { blankCause with isChanging := true, initial := true }

/-- A changing handler scoped to the field `spec.x` with
`field_needs_change=True` and unconstrained old/new criteria. -/
def specXHandler : ResourceHandler :=
  { blankHandler with
      id := "sx"
      isChanging := true
      field := ["spec", "x"]
      field_needs_change := true }

/-- The body `spec.x = 1`. -/
def specBody1 : Val :=
  Val.map (ValMap.cons "spec"
    (Val.map (ValMap.cons "x" (Val.num 1) ValMap.nil)) ValMap.nil)

/-- The body `spec.x = 2`. -/
def specBody2 : Val :=
  Val.map (ValMap.cons "spec"
    (Val.map (ValMap.cons "x" (Val.num 2) ValMap.nil)) ValMap.nil)

/-- A changing cause with identical old and new bodies (`spec.x = 1`). -/
def specXCauseSame : Cause :=
  { blankCause with
      isChanging := true
      old := some specBody1
      new := some specBody1 }

/-- A changing cause whose `spec.x` changes from 1 to 2. -/
def specXCauseChanged : Cause :=
  { blankCause with
      isChanging := true
      old := some specBody1
      new := some specBody2 }

/-- A handler filtering on the label `env: prod`. -/
def labeledHandler : ResourceHandler :=
  { blankHandler with labels := [("env", MetaVal.value "prod")] }

/-- A body carrying the label `env: prod`. -/
def prodBody : Val :=
  Val.map (ValMap.cons "metadata"
    (Val.map (ValMap.cons "labels"
      (Val.map (ValMap.cons "env" (Val.str "prod") ValMap.nil)) ValMap.nil))
    ValMap.nil)

/-- A cause whose body carries the label `env: prod`. -/
def prodCause : Cause := { blankCause with body := prodBody }

/-- Two activity handlers sharing the id but not the callable identity. -/
def dupIdA : ActivityHandler := { id := "x", fnId := 1, activity := none, _fallback := false }

/-- Another handler with the same id `x` but a different callable. -/
def dupIdB : ActivityHandler := { id := "x", fnId := 2, activity := none, _fallback := false }

/-! Shared characterization lemmas. -/

/-- `_matches_resource` holds exactly when the selector is unset or accepts
the resource. -/
theorem _matches_resource_iff (handler : ResourceHandler) (resource : Resource) :
    _matches_resource handler resource = true ↔
      handler.selector = none ∨
        ∃ s, handler.selector = some s ∧ s resource = true := by
  unfold _matches_resource
  cases h : handler.selector <;> simp [h]

/-- Membership in the webhook registry's selection, unfolded to the Python
conditions in propositional form. -/
theorem mem_webhooks_iter (handlers : List ResourceHandler) (cause : Cause)
    (excluded : List String) (handler : ResourceHandler) :
    handler ∈ WebhooksRegistry.iter_handlers handlers cause excluded ↔
      handler ∈ handlers ∧ handler.id ∉ excluded ∧
      (cause.reason = none ∨ cause.reason = handler.reason) ∧
      (cause.webhook = none ∨ cause.webhook = some handler.id) ∧
      (handler.reason ≠ some WebhookType.MUTATING ∨
        cause.operation ≠ some "DELETE" ∨
        (handler.operations.getD []).toFinset = ({"DELETE"} : Finset String)) ∧
      «match» handler cause = true := by
  unfold WebhooksRegistry.iter_handlers explicitly_for_deletion
  rw [List.mem_filter]
  simp [Bool.and_eq_true, Bool.or_eq_true, Option.isNone_iff_eq_none,
    beq_iff_eq, bne_iff_ne, decide_eq_true_eq, and_assoc, or_assoc]

/-- Membership in the changing registry's selection, unfolded to the Python
conditions in propositional form. -/
theorem mem_changing_iter (handlers : List ResourceHandler) (cause : Cause)
    (excluded : List String) (handler : ResourceHandler) :
    handler ∈ ChangingRegistry.iter_handlers handlers cause excluded ↔
      handler ∈ handlers ∧ handler.id ∉ excluded ∧
      (handler.reason = none ∨ handler.reason = cause.reason) ∧
      (handler.initial = true → cause.initial = true) ∧
      (handler.initial = true → cause.deleted = true → handler.deleted = true) ∧
      «match» handler cause = true := by
  unfold ChangingRegistry.iter_handlers
  rw [List.mem_filter]
  simp [Bool.and_eq_true, Bool.or_eq_true, Option.isNone_iff_eq_none,
    beq_iff_eq, and_assoc]
  intro _ _ _
  cases h1 : handler.initial <;> cases h2 : cause.initial <;>
    cases h3 : cause.deleted <;> cases h4 : handler.deleted <;> simp

/-! Claim theorems. -/

/-- Claim C3: `match(handler, cause)` returns true exactly when
`prematch(handler, cause)` and the field-change match both do; the filter
callables are pure by construction in this embedding. -/
theorem match_eq_prematch_and_field_changes (handler : ResourceHandler) (cause : Cause) :
    «match» handler cause =
      (prematch handler cause && _matches_field_changes handler cause cause.kwargs) := by
  unfold «match» prematch
  generalize _matches_resource handler cause.resource = a
  generalize _matches_subresource handler cause = b
  generalize _matches_labels handler cause cause.kwargs = c
  generalize _matches_annotations handler cause cause.kwargs = d
  generalize _matches_field_values handler cause cause.kwargs = e
  generalize _matches_field_changes handler cause cause.kwargs = f
  generalize _matches_filter_callback handler cause cause.kwargs = g
  revert a b c d e f g
  decide

/-- Claim C9: `generate_id` uses the explicit id when given, else the id
derived from the callable; the truthy suffix is appended as `id/suffix` and
the truthy prefix prepended as `prefix/id`, giving `prefix/id/suffix` with
both; deriving the id of the same named function with no explicit id is
the same string both times (`ok qualname`); a `None` callable with no
explicit id fails with the invalid-callable error. -/
theorem generate_id_spec :
    (∀ (fn : PyCallable) (i p s : String), p ≠ "" → s ≠ "" →
      generate_id fn (some i) (some p) (some s) =
        Except.ok (p ++ "/" ++ i ++ "/" ++ s)) ∧
    (∀ fn : PyCallable, generate_id fn none none none = get_callable_id fn) ∧
    (∀ q : String,
      generate_id (PyCallable.function q) none none none = Except.ok q) ∧
    (∀ p s : Option String,
      generate_id PyCallable.none none p s =
        Except.error "Cannot build a persistent id of None.") := by
  refine ⟨?_, ?_, ?_, ?_⟩
  · intro fn i p s hp hs
    simp [generate_id, hp, hs, String.append_assoc, pure, Except.pure,
      Bind.bind, Except.bind]
  · intro fn
    cases h : get_callable_id fn <;>
      simp [generate_id, h, pure, Except.pure, Bind.bind, Except.bind]
  · intro q
    simp [generate_id, get_callable_id, pure, Except.pure, Bind.bind, Except.bind]
  · intro p s
    cases p <;> cases s <;>
      simp [generate_id, get_callable_id, pure, Except.pure, Bind.bind, Except.bind]

/-- Witness for C9 at a concrete named function, explicit id, prefix and
suffix, and at the `None` callable. -/
theorem generate_id_spec_witness :
    generate_id (PyCallable.function "fn") (some "an_id") (some "pre") (some "suf") =
      Except.ok ("pre" ++ "/" ++ "an_id" ++ "/" ++ "suf") ∧
    generate_id PyCallable.none none none none =
      Except.error "Cannot build a persistent id of None." :=
  ⟨generate_id_spec.1 (PyCallable.function "fn") "an_id" "pre" "suf"
      (by decide) (by decide),
    generate_id_spec.2.2.2 none none⟩

/-- Claim C10: `has_handlers` holds exactly when some registered handler has
no selector or a selector accepting the resource; a registry with a
selector-`None` (sub-)handler reports `has_handlers` for every resource
kind, while `get_all_selectors` only ever contains selectors that some
handler actually carries (the `None` selectors contribute nothing). -/
theorem has_handlers_spec (handlers : List ResourceHandler) (resource : Resource) :
    (ResourceRegistry.has_handlers handlers resource = true ↔
      ∃ handler ∈ handlers, handler.selector = none ∨
        ∃ s, handler.selector = some s ∧ s resource = true) ∧
    ((∃ handler ∈ handlers, handler.selector = none) →
      ∀ r : Resource, ResourceRegistry.has_handlers handlers r = true) ∧
    (∀ s ∈ ResourceRegistry.get_all_selectors handlers,
      ∃ handler ∈ handlers, handler.selector = some s) := by
  refine ⟨?_, ?_, ?_⟩
  · unfold ResourceRegistry.has_handlers
    rw [List.any_eq_true]
    exact exists_congr fun handler =>
      and_congr_right fun _ => _matches_resource_iff handler resource
  · rintro ⟨handler, hmem, hsel⟩ r
    unfold ResourceRegistry.has_handlers
    rw [List.any_eq_true]
    exact ⟨handler, hmem, by simp [_matches_resource, hsel]⟩
  · intro s hs
    simpa [ResourceRegistry.get_all_selectors, List.mem_filterMap] using hs

/-- Witness for C10: the registry containing only the selector-`None`
sub-handler reports `has_handlers` for the `Pod` resource kind. -/
theorem has_handlers_spec_witness :
    ResourceRegistry.has_handlers [subHandler] "Pod" = true :=
  (has_handlers_spec [subHandler] "Pod").2.1 ⟨subHandler, by simp, rfl⟩ "Pod"

/-- Claim C1 (code bug): with a matching non-fallback handler registered, a
fallback handler with an unset activity tag is still returned — inside the
first (regular) tier, at that — because `handler.activity is None or
handler.activity == activity and not handler._fallback` parenthesizes as
`is None or (equal and not fallback)`.  This contradicts the function's own
comments ("Regular handlers go first", "Fallback handlers -- only if there
were no matching regular handlers") and the claim's fallback-tier rule. -/
theorem activity_fallback_tier_violated :
    ActivityRegistry.iter_handlers [regActivityHandler, fbActivityHandler] "AUTHENTICATION"
        = [regActivityHandler, fbActivityHandler] ∧
    regActivityHandler._fallback = false ∧
    fbActivityHandler._fallback = true ∧
    regActivityHandler.activity = some "AUTHENTICATION" ∧
    fbActivityHandler.activity = none := by
  refine ⟨by decide, rfl, rfl, rfl, rfl⟩

/-- Counterexample to claim C2: a webhook handler with `reason=None` IS
excluded on reason grounds for a cause whose reason is set (here
VALIDATING), although every other match criterion holds — the code computes
`matching_reason = cause.reason is None or cause.reason == handler.reason`,
keyed on the cause, not on the handler. -/
theorem webhook_handler_reason_none_excluded :
    WebhooksRegistry.iter_handlers [whReasonNone] whCauseValidating [] = [] ∧
    whReasonNone.reason = none ∧
    «match» whReasonNone whCauseValidating = true :=
  ⟨rfl, rfl, rfl⟩

/-- Claim C2 (amended): in the webhook registry, reason compatibility is
keyed on the cause: a handler is reason-compatible exactly when the cause's
reason is unset (`None`) or equals the handler's reason.  A cause with an
unset reason excludes no handler on reason grounds; a handler with
`reason=None` is excluded whenever the cause's reason is set. -/
theorem webhook_reason_compat (handlers : List ResourceHandler) (cause : Cause)
    (excluded : List String) (handler : ResourceHandler) :
    (handler ∈ WebhooksRegistry.iter_handlers handlers cause excluded ↔
      handler ∈ handlers ∧ handler.id ∉ excluded ∧
      (cause.reason = none ∨ cause.reason = handler.reason) ∧
      (cause.webhook = none ∨ cause.webhook = some handler.id) ∧
      (handler.reason ≠ some WebhookType.MUTATING ∨
        cause.operation ≠ some "DELETE" ∨
        (handler.operations.getD []).toFinset = ({"DELETE"} : Finset String)) ∧
      «match» handler cause = true) ∧
    (cause.reason ≠ none → handler.reason = none →
      handler ∉ WebhooksRegistry.iter_handlers handlers cause excluded) := by
  refine ⟨mem_webhooks_iter handlers cause excluded handler, ?_⟩
  intro hc hr hmem
  rw [mem_webhooks_iter] at hmem
  obtain ⟨_, _, hreason, _⟩ := hmem
  rcases hreason with h | h
  · exact hc h
  · rw [hr] at h
    exact hc h

/-- Witness for the amended C2: the reason-`None` webhook handler is not
selected for the VALIDATING-hinted cause. -/
theorem webhook_reason_compat_witness :
    whReasonNone ∉ WebhooksRegistry.iter_handlers [whReasonNone] whCauseValidating [] :=
  (webhook_reason_compat [whReasonNone] whCauseValidating [] whReasonNone).2
    (by decide) rfl

/-- Claim C5: for a DELETE-operation cause, a mutating-type webhook handler
whose operation set is not exactly the singleton DELETE set (in particular
an unset `operations`) is excluded; with exactly that set it is included
subject to the remaining criteria; a non-mutating handler or a non-DELETE
operation is unaffected by the deletion-safety gate. -/
theorem webhook_delete_safety (handlers : List ResourceHandler) (cause : Cause)
    (excluded : List String) (handler : ResourceHandler) :
    (cause.operation = some "DELETE" →
      handler.reason = some WebhookType.MUTATING →
      (handler.operations.getD []).toFinset ≠ ({"DELETE"} : Finset String) →
      handler ∉ WebhooksRegistry.iter_handlers handlers cause excluded) ∧
    (cause.operation = some "DELETE" →
      handler.reason = some WebhookType.MUTATING →
      (handler.operations.getD []).toFinset = ({"DELETE"} : Finset String) →
      (handler ∈ WebhooksRegistry.iter_handlers handlers cause excluded ↔
        handler ∈ handlers ∧ handler.id ∉ excluded ∧
        (cause.reason = none ∨ cause.reason = handler.reason) ∧
        (cause.webhook = none ∨ cause.webhook = some handler.id) ∧
        «match» handler cause = true)) ∧
    ((handler.reason ≠ some WebhookType.MUTATING ∨ cause.operation ≠ some "DELETE") →
      (handler ∈ WebhooksRegistry.iter_handlers handlers cause excluded ↔
        handler ∈ handlers ∧ handler.id ∉ excluded ∧
        (cause.reason = none ∨ cause.reason = handler.reason) ∧
        (cause.webhook = none ∨ cause.webhook = some handler.id) ∧
        «match» handler cause = true)) := by
  refine ⟨?_, ?_, ?_⟩
  · intro hop hr hops hmem
    rw [mem_webhooks_iter] at hmem
    obtain ⟨_, _, _, _, hg, _⟩ := hmem
    rcases hg with h | h | h
    · exact h hr
    · exact h hop
    · exact hops h
  · intro _ _ hops
    rw [mem_webhooks_iter]
    exact ⟨fun ⟨a, b, c, d, _, e⟩ => ⟨a, b, c, d, e⟩,
      fun ⟨a, b, c, d, e⟩ => ⟨a, b, c, d, Or.inr (Or.inr hops), e⟩⟩
  · intro hg
    rw [mem_webhooks_iter]
    refine ⟨fun ⟨a, b, c, d, _, e⟩ => ⟨a, b, c, d, e⟩,
      fun ⟨a, b, c, d, e⟩ => ⟨a, b, c, d, ?_, e⟩⟩
    rcases hg with h | h
    · exact Or.inl h
    · exact Or.inr (Or.inl h)

/-- Witness for C5: with a DELETE-operation cause, the mutating handler with
`operations` unset is excluded and the mutating handler with
`operations=['DELETE']` is selected. -/
theorem webhook_delete_safety_witness :
    whMutatingNoOps ∉ WebhooksRegistry.iter_handlers [whMutatingNoOps] whDeleteCause [] ∧
    whMutatingDel ∈ WebhooksRegistry.iter_handlers [whMutatingDel] whDeleteCause [] :=
  ⟨(webhook_delete_safety [whMutatingNoOps] whDeleteCause [] whMutatingNoOps).1
      rfl rfl (by decide),
    ((webhook_delete_safety [whMutatingDel] whDeleteCause [] whMutatingDel).2.1
        rfl rfl (by decide)).mpr
      ⟨by simp, by simp, Or.inl rfl, Or.inl rfl, rfl⟩⟩

/-- Claim C7: an initial handler is excluded on non-initial causes; on an
initial but deleted cause it is excluded unless also explicitly marked for
deletions; otherwise membership reduces to the exclusion list, the
reason-compatibility check (handler's reason unset or equal to the cause's
reason) and the common match predicate. -/
theorem changing_initial_skip (handlers : List ResourceHandler) (cause : Cause)
    (excluded : List String) (handler : ResourceHandler) :
    (handler.initial = true → cause.initial = false →
      handler ∉ ChangingRegistry.iter_handlers handlers cause excluded) ∧
    (handler.initial = true → cause.initial = true → cause.deleted = true →
      handler.deleted = false →
      handler ∉ ChangingRegistry.iter_handlers handlers cause excluded) ∧
    ((handler.initial = true → cause.initial = true) →
      (handler.initial = true → cause.deleted = true → handler.deleted = true) →
      (handler ∈ ChangingRegistry.iter_handlers handlers cause excluded ↔
        handler ∈ handlers ∧ handler.id ∉ excluded ∧
        (handler.reason = none ∨ handler.reason = cause.reason) ∧
        «match» handler cause = true)) := by
  refine ⟨?_, ?_, ?_⟩
  · intro hi hci hmem
    rw [mem_changing_iter] at hmem
    obtain ⟨_, _, _, h, _, _⟩ := hmem
    have h1 := h hi
    rw [hci] at h1
    exact Bool.false_ne_true h1
  · intro hi _ hcd hhd hmem
    rw [mem_changing_iter] at hmem
    obtain ⟨_, _, _, _, h, _⟩ := hmem
    have h1 := h hi hcd
    rw [hhd] at h1
    exact Bool.false_ne_true h1
  · intro h1 h2
    rw [mem_changing_iter]
    exact ⟨fun ⟨a, b, c, _, _, d⟩ => ⟨a, b, c, d⟩,
      fun ⟨a, b, c, d⟩ => ⟨a, b, c, h1, h2, d⟩⟩

/-- Witness for C7: the initial handler is excluded on the non-initial cause
and included on the initial cause. -/
theorem changing_initial_skip_witness :
    initialHandler ∉ ChangingRegistry.iter_handlers [initialHandler] nonInitialCause [] ∧
    initialHandler ∈ ChangingRegistry.iter_handlers [initialHandler] initialCause [] :=
  ⟨(changing_initial_skip [initialHandler] nonInitialCause [] initialHandler).1 rfl rfl,
    ((changing_initial_skip [initialHandler] initialCause [] initialHandler).2.2
        (fun _ => rfl) (fun _ h => absurd h (by decide))).mpr
      ⟨by simp, by simp, Or.inl rfl, rfl⟩⟩

/-- Claim C6: for a field-scoped changing handler on a changing cause, with
`field_needs_change` set the field-change match fails whenever old and new
resolve to equal values; with an actual change — or with
`field_needs_change` unset — the match is exactly the conjunction of the
`old` and `new` criteria under the
{None/present/absent/predicate/equality} semantics. -/
theorem field_change_gating (handler : ResourceHandler) (cause : Cause) :
    (handler.isChanging = true → cause.isChanging = true → handler.field ≠ [] →
      handler.field_needs_change = true →
      resolve cause.old handler.field = resolve cause.new handler.field →
      _matches_field_changes handler cause cause.kwargs = false) ∧
    (handler.isChanging = true → cause.isChanging = true → handler.field ≠ [] →
      (handler.field_needs_change = false ∨
        resolve cause.old handler.field ≠ resolve cause.new handler.field) →
      _matches_field_changes handler cause cause.kwargs =
        (criterionAccepts handler.old (resolve cause.old handler.field) cause.kwargs &&
          criterionAccepts handler.new (resolve cause.new handler.field) cause.kwargs)) := by
  constructor
  · intro h1 h2 h3 h4 h5
    have hf : handler.field.isEmpty = false := by
      cases hfe : handler.field
      · exact absurd hfe h3
      · rfl
    simp [_matches_field_changes, h1, h2, hf, h4, h5]
  · intro h1 h2 h3 h4
    have hf : handler.field.isEmpty = false := by
      cases hfe : handler.field
      · exact absurd hfe h3
      · rfl
    have hgate : (!handler.field_needs_change ||
        (resolve cause.old handler.field != resolve cause.new handler.field)) = true := by
      rcases h4 with h | h
      · rw [h]; rfl
      · rw [bne_iff_ne.mpr h, Bool.or_true]
    simp only [_matches_field_changes, h1, h2, hf, Bool.not_true, Bool.not_false,
      if_false, Bool.false_eq_true, if_neg, hgate, Bool.true_and]
    cases ho : handler.old <;> cases hn : handler.new <;>
      simp [criterionAccepts, ho, hn]

/-- Witness for C6, the spec's own example: the `spec.x` handler with
`field_needs_change=True` does not fire when old and new both carry
`spec.x = 1`, and fires when new carries `spec.x = 2`. -/
theorem field_change_gating_witness :
    _matches_field_changes specXHandler specXCauseSame specXCauseSame.kwargs = false ∧
    _matches_field_changes specXHandler specXCauseChanged specXCauseChanged.kwargs = true := by
  constructor
  · exact (field_change_gating specXHandler specXCauseSame).1 rfl rfl (by decide) rfl rfl
  · have h := (field_change_gating specXHandler specXCauseChanged).2 rfl rfl
      (by decide) (Or.inr (by decide))
    rw [h]
    rfl

/-- The per-key loop of `_matches_metadata` succeeds exactly when every key
of the pattern passes the spec's per-key criterion. -/
theorem _matches_metadata_iff (pattern : List (String × MetaVal))
    (content : List (String × String)) (kwargs : Kwargs) :
    _matches_metadata pattern content kwargs = true ↔
      ∀ kv ∈ pattern, metaKeyPasses content kwargs kv.1 kv.2 = true := by
  induction pattern with
  | nil => simp [_matches_metadata]
  | cons kv rest ih =>
    obtain ⟨key, value⟩ := kv
    cases value with
    | present =>
        cases h : (content.lookup key).isSome <;>
          simp [_matches_metadata, metaKeyPasses, h, ih, List.forall_mem_cons]
    | absent =>
        cases h : (content.lookup key).isNone <;>
          simp [_matches_metadata, metaKeyPasses, h, ih, List.forall_mem_cons]
    | pred f =>
        cases h : f (content.lookup key) kwargs <;>
          simp [_matches_metadata, metaKeyPasses, h, ih, List.forall_mem_cons]
    | value v =>
        cases h : content.lookup key with
        | none => simp [_matches_metadata, metaKeyPasses, h, List.forall_mem_cons]
        | some w =>
            by_cases hv : v = w
            · subst hv
              simp [_matches_metadata, metaKeyPasses, h, ih, List.forall_mem_cons]
            · simp [_matches_metadata, metaKeyPasses, h, hv, ih,
                List.forall_mem_cons, Ne.symm hv]

/-- Claim C8: the label (annotation) match holds exactly when every key of
the handler's filter mapping passes the {absent/present/predicate/equality}
per-key criterion against the body's labels (annotations); an empty filter
mapping always matches (the universal quantification is vacuous). -/
theorem labels_annotations_match_iff (handler : ResourceHandler) (cause : Cause) :
    (_matches_labels handler cause cause.kwargs = true ↔
      ∀ kv ∈ handler.labels,
        metaKeyPasses (bodyMeta cause.body "labels") cause.kwargs kv.1 kv.2 = true) ∧
    (_matches_annotations handler cause cause.kwargs = true ↔
      ∀ kv ∈ handler.annotations,
        metaKeyPasses (bodyMeta cause.body "annotations") cause.kwargs kv.1 kv.2 = true) := by
  constructor
  · unfold _matches_labels
    cases h : handler.labels with
    | nil => simp
    | cons kv rest => simp [_matches_metadata_iff]
  · unfold _matches_annotations
    cases h : handler.annotations with
    | nil => simp
    | cons kv rest => simp [_matches_metadata_iff]

/-- Witness for C8: the `env: prod` label filter matches the body labelled
`env: prod`. -/
theorem labels_annotations_match_iff_witness :
    _matches_labels labeledHandler prodCause prodCause.kwargs = true :=
  (labels_annotations_match_iff labeledHandler prodCause).1.mpr
    (by
      intro kv hkv
      have hl : labeledHandler.labels = [("env", MetaVal.value "prod")] := rfl
      rw [hl, List.mem_singleton] at hkv
      subst hkv
      rfl)

/-- The empty-list equation of `keepFirstOccurrences`. -/
theorem keepFirstOccurrences_nil {α : Type} (fn_id : α → Nat) (handler_id : α → String) :
    keepFirstOccurrences fn_id handler_id [] = [] := by
  rw [keepFirstOccurrences.eq_def]

/-- The cons equation of `keepFirstOccurrences`. -/
theorem keepFirstOccurrences_cons {α : Type} (fn_id : α → Nat) (handler_id : α → String)
    (h : α) (t : List α) :
    keepFirstOccurrences fn_id handler_id (h :: t) =
      h :: keepFirstOccurrences fn_id handler_id
        (t.filter (fun other =>
          decide ((fn_id other, handler_id other) ≠ (fn_id h, handler_id h)))) := by
  rw [keepFirstOccurrences.eq_def]

/-- The accumulator invariant of the deduplication loop: running with a seen
set equals the spec recursion on the input with already-seen keys removed. -/
theorem dedupGo_eq_keepFirst {α : Type} (fn_id : α → Nat) (handler_id : α → String)
    (l : List α) : ∀ seen : List (Nat × String),
    dedupGo fn_id handler_id seen l =
      keepFirstOccurrences fn_id handler_id
        (l.filter (fun x => decide ((fn_id x, handler_id x) ∉ seen))) := by
  induction l with
  | nil =>
    intro seen
    rw [List.filter_nil, keepFirstOccurrences_nil]
    rfl
  | cons h t ih =>
    intro seen
    by_cases hmem : (fn_id h, handler_id h) ∈ seen
    · rw [List.filter_cons, if_neg (by simp [hmem])]
      simp only [dedupGo, if_pos hmem]
      exact ih seen
    · rw [List.filter_cons, if_pos (by simp [hmem])]
      simp only [dedupGo, if_neg hmem]
      rw [ih ((fn_id h, handler_id h) :: seen), keepFirstOccurrences_cons]
      have hfe : (t.filter (fun x =>
            decide ((fn_id x, handler_id x) ∉ seen))).filter
              (fun other =>
                decide ((fn_id other, handler_id other) ≠ (fn_id h, handler_id h))) =
          t.filter (fun x =>
            decide ((fn_id x, handler_id x) ∉ (fn_id h, handler_id h) :: seen)) := by
        rw [List.filter_filter]
        apply List.filter_congr
        intro a _
        by_cases hah : (fn_id a, handler_id a) = (fn_id h, handler_id h) <;>
          by_cases has : (fn_id a, handler_id a) ∈ seen <;>
            simp [hah, has, List.mem_cons]
      rw [hfe]

/-- Claim C4: the deduplicator keeps exactly the first occurrence of each
(callable identity, id) pair, in first-occurrence order; two handlers
agreeing on only the id or on only the callable identity are both kept. -/
theorem _deduplicated_spec {α : Type} (fn_id : α → Nat) (handler_id : α → String) :
    (∀ l : List α, _deduplicated fn_id handler_id l =
      keepFirstOccurrences fn_id handler_id l) ∧
    (∀ a b : α, handler_id a = handler_id b → fn_id a ≠ fn_id b →
      _deduplicated fn_id handler_id [a, b] = [a, b]) ∧
    (∀ a b : α, fn_id a = fn_id b → handler_id a ≠ handler_id b →
      _deduplicated fn_id handler_id [a, b] = [a, b]) := by
  refine ⟨?_, ?_, ?_⟩
  · intro l
    unfold _deduplicated
    rw [dedupGo_eq_keepFirst]
    congr 1
    exact List.filter_eq_self.mpr (fun a _ => by simp)
  · intro a b _ hfn
    simp [_deduplicated, dedupGo]
    exact fun hh _ => hfn hh.symm
  · intro a b _ hid
    simp [_deduplicated, dedupGo]
    exact fun _ hh => hid hh.symm

/-- Witness for C4: two handlers with the same id but distinct callables are
both kept by the deduplicator. -/
theorem _deduplicated_spec_witness :
    _deduplicated (fun h : ActivityHandler => h.fnId) (fun h => h.id)
      [dupIdA, dupIdB] = [dupIdA, dupIdB] :=
  (_deduplicated_spec (fun h : ActivityHandler => h.fnId) (fun h => h.id)).2.1
    dupIdA dupIdB rfl (by decide)

end Kopf
